import Mathlib

/-!
Verification of the turn-based speech-translation relay of the conversaflow
repository, against a shallow embedding of its TypeScript source.

The embedding covers:
* the Translation Client (`src/hooks/useTranslation.ts`, function `translate`);
* the Speech Synthesis Client (`src/hooks/useElevenLabsTTS.ts`, functions
  `speak` / `stopSpeaking`) and the phone-call variant's
  `speakTranslationDuringCall` (PhoneCallTranslator);
* the single-device relay (`src/components/SingleDeviceBridge.tsx`):
  component state, `startTranslation`, `stopTranslation`, `switchDirection`,
  `handleNewSpeech`, and the event dispatch implied by the rendered controls.

External effects are made explicit: the outcome of the translation provider
request and of the synthesis provider request are oracle parameters, numeric
confidences are exact rationals, and audio playback is recorded in an
observable log.  JS falsiness of strings is empty-string testing; JS
`Date.now()` is an abstract `Nat` parameter.
-/

namespace Conversaflow

/-! ## Translation Client (src/hooks/useTranslation.ts) -/

/-- Result record of `translate` (interface `TranslationResult`). -/
structure TranslationResult where
  translatedText : String
  sourceLanguage : String
  targetLanguage : String
  confidence : ℚ
deriving DecidableEq, Repr

/-- Outcome of the provider request made by `translate`: the `fetch` can throw
(network error), the response can be non-2xx (`!response.ok`), or the request
succeeds and the payload chain `data[0]?.[0]?.[0]` yields either nothing
(`none`) or a string. -/
inductive ProviderOutcome where
  | netError
  | httpError
  | ok (payload : Option String)
deriving DecidableEq, Repr

/-- A provider failure: the two cases that reach the `catch` block. -/
def ProviderOutcome.isFailure : ProviderOutcome → Bool
  | .netError => true
  | .httpError => true
  | .ok _ => false

/-- JS `String.prototype.trim`: strips whitespace from both ends (structural
model of the `.trim()` calls; Lean's own `String.trim` is definitionally
opaque to the kernel). -/
def jsTrim (s : String) : String :=
  String.mk (((s.data.dropWhile Char.isWhitespace).reverse.dropWhile
    Char.isWhitespace).reverse)

/-- JS `String.prototype.toUpperCase` (ASCII). -/
def jsToUpper (s : String) : String := String.mk (s.data.map Char.toUpper)

def lowerList (l : List Char) : List Char := l.map Char.toLower

/-- Fuel-indexed scanner for `replaceAllCI`; structural recursion on the fuel
keeps it kernel-computable.  At each position of a non-empty pattern match it
emits the replacement and skips past the matched span, else copies one
character; with fuel at least the length of the list, the fuel never runs
out. -/
def replaceAllCIAux : Nat → List Char → List Char → List Char → List Char
  | 0, s, _, _ => s
  | _ + 1, [], _, _ => []
  | fuel + 1, c :: rest, pat, rep =>
    if pat ≠ [] ∧ lowerList (List.take pat.length (c :: rest)) = lowerList pat then
      rep ++ replaceAllCIAux fuel (List.drop pat.length (c :: rest)) pat rep
    else
      c :: replaceAllCIAux fuel rest pat rep

/-- Global case-insensitive literal replacement over character lists, the
semantics of the JS `String.replace(/pat/gi, rep)` calls in the fallback
phrase table (ASCII case folding). -/
def replaceAllCI (s pat rep : List Char) : List Char :=
  replaceAllCIAux s.length s pat rep

def replaceGi (s pat rep : String) : String :=
  String.mk (replaceAllCI s.data pat.data rep.data)

/-- The `catch` block of `translate`: the fixed phrase-substitution tables for
the three supported language pairs, else the literal passthrough with the
upper-cased target-language marker; confidence 0.7. -/
def fallbackTranslate (text fromLang toLang : String) : TranslationResult :=
  let translatedText :=
    if fromLang = "en" ∧ toLang = "es" then
      replaceGi (replaceGi (replaceGi (replaceGi (replaceGi (replaceGi (replaceGi
        text "hello" "hola") "hi" "hola") "how are you" "cómo estás")
        "thank you" "gracias") "good morning" "buenos días")
        "good afternoon" "buenas tardes") "goodbye" "adiós"
    else if fromLang = "en" ∧ toLang = "pt-BR" then
      replaceGi (replaceGi (replaceGi (replaceGi (replaceGi (replaceGi
        text "hello" "olá") "hi" "olá") "how are you" "como você está")
        "thank you" "obrigado") "good morning" "bom dia") "goodbye" "tchau"
    else if fromLang = "es" ∧ toLang = "en" then
      replaceGi (replaceGi (replaceGi (replaceGi (replaceGi
        text "hola" "hello") "cómo estás" "how are you") "gracias" "thank you")
        "buenos días" "good morning") "adiós" "goodbye"
    else
      "[" ++ jsToUpper toLang ++ "] " ++ text
  { translatedText := translatedText
    sourceLanguage := fromLang
    targetLanguage := toLang
    confidence := mkRat 7 10 }

/-- Whether the fallback phrase table has entries for the pair
(the first three branches of the `catch` block). -/
def hasPhraseEntry (fromLang toLang : String) : Bool :=
  (fromLang = "en" ∧ toLang = "es") ∨ (fromLang = "en" ∧ toLang = "pt-BR") ∨
    (fromLang = "es" ∧ toLang = "en")

/-- The `translate` function of `useTranslation`.  Empty (after trim) text
throws; identical languages short-circuit with confidence 1.0 before any
request is made; otherwise the provider outcome decides: a reachable `catch`
(network error or non-2xx) produces the fallback result, a 2xx response
yields `data[0]?.[0]?.[0] || text` with confidence 0.9 (JS `||` treats a
missing or empty payload as falsy). -/
def translate (provider : ProviderOutcome) (text fromLang toLang : String) :
    Except String TranslationResult :=
  if jsTrim text = "" then
    .error "No text to translate"
  else if fromLang = toLang then
    .ok { translatedText := text, sourceLanguage := fromLang,
          targetLanguage := toLang, confidence := mkRat 1 1 }
  else
    match provider with
    | .ok payload =>
      let translatedText :=
        match payload with
        | some s => if s = "" then text else s
        | none => text
      .ok { translatedText := translatedText, sourceLanguage := fromLang,
            targetLanguage := toLang, confidence := mkRat 9 10 }
    | _ => .ok (fallbackTranslate text fromLang toLang)

/-! ## Speech Synthesis Client (src/hooks/useElevenLabsTTS.ts) -/

/-- Which synthesis engine produced a piece of audio. -/
inductive Engine where
  | elevenLabs
  | browser
deriving DecidableEq, Repr

/-- One observable playback: audio for `text` in `language` started playing on
`engine`. -/
structure SpokenEvent where
  engine : Engine
  text : String
  language : String
deriving DecidableEq, Repr

/-- The hook state of `useElevenLabsTTS` (`isPlaying`, `error`), extended with
the observable log of playbacks that actually started. -/
structure TTSState where
  isPlaying : Bool
  errorMsg : Option String
  spoken : List SpokenEvent
deriving DecidableEq, Repr

def initTTS : TTSState := { isPlaying := false, errorMsg := none, spoken := [] }

/-- Function `stopSpeaking`: pauses any current audio and clears the playing flag. -/
def stopSpeaking (ts : TTSState) : TTSState := { ts with isPlaying := false }

/-- Outcome of the synthesis provider round trip inside `speak`: the serverless
function can return an error, the payload can lack `audioContent`, playback
can fail to start, or everything succeeds. -/
inductive TTSOutcome where
  | success
  | fnError (msg : String)
  | noAudio
  | playFailed (msg : String)
deriving DecidableEq, Repr

/-- Function `speak` of `useElevenLabsTTS`.  Blank text returns immediately; otherwise
the error state is cleared, any current audio is stopped, and the provider is
consulted.  Crucially the function's own `catch` absorbs every failure (it
records the message and clears `isPlaying`), so the returned promise resolves
in every case: the `Except` value is always `ok`. -/
def elevenSpeak (o : TTSOutcome) (ts : TTSState) (text language : String) :
    Except String TTSState :=
  if jsTrim text = "" then .ok ts
  else
    let ts1 := stopSpeaking { ts with errorMsg := none }
    let ts2 := { ts1 with isPlaying := true }
    match o with
    | .success =>
      .ok { ts2 with spoken := ts2.spoken ++ [⟨.elevenLabs, text, language⟩] }
    | .fnError m => .ok { ts2 with errorMsg := some m, isPlaying := false }
    | .noAudio =>
      .ok { ts2 with errorMsg := some "No audio data received", isPlaying := false }
    | .playFailed m => .ok { ts2 with errorMsg := some m, isPlaying := false }

/-- Browser `speechSynthesis` playback, the intended fallback engine of
`speakTranslationDuringCall` (PhoneCallTranslator). -/
def browserSpeak (ts : TTSState) (text language : String) : TTSState :=
  { ts with spoken := ts.spoken ++ [⟨.browser, text, language⟩] }

/-- Function `speakTranslationDuringCall` of PhoneCallTranslator: skips blank text or an
inactive call, awaits `elevenSpeak`, and only if that await rejects does the
`catch` run the browser-synthesis fallback. -/
def speakTranslationDuringCall (o : TTSOutcome) (callActive : Bool)
    (ts : TTSState) (text language : String) : TTSState :=
  if text = "" ∨ callActive = false then ts
  else
    match elevenSpeak o ts text language with
    | .ok ts2 => ts2
    | .error _ => browserSpeak ts text language

/-! ## Speech Capture Adapter

The `useSpeechRecognition` hook is imported by the bridge screens but its
source file is not part of the repository, so its boundary contract is
modelled from the specification. -/

/-- Listening flag of the capture adapter plus whether the exclusive
microphone resource is held. -/
structure CaptureState where
  isListening : Bool
  micHeld : Bool
deriving DecidableEq, Repr

/-- Modelled from the spec: the `useSpeechRecognition` hook's source is absent
from the repository; per the Capture Adapter contract, `startListening` arms
recognition and acquires the exclusive microphone resource. -/
def startListening (_c : CaptureState) : CaptureState :=
  { isListening := true, micHeld := true }

/-- Modelled from the spec: the `useSpeechRecognition` hook's source is absent
from the repository; per the Capture Adapter contract, `stopListening` leaves
the listening state false and releases the microphone resource. -/
def stopListening (_c : CaptureState) : CaptureState :=
  { isListening := false, micHeld := false }

/-! ## Turn-Based Relay (src/components/SingleDeviceBridge.tsx) -/

/-- The `"a_to_b" | "b_to_a"` direction union type. -/
inductive Direction where
  | a_to_b
  | b_to_a
deriving DecidableEq, Repr

/-- The ternary in `switchDirection`. -/
def Direction.flip : Direction → Direction
  | .a_to_b => .b_to_a
  | .b_to_a => .a_to_b

/-- The `Translation` record interface of SingleDeviceBridge. -/
structure Translation where
  id : String
  originalText : String
  translatedText : String
  direction : Direction
  timestamp : Nat
  sourceLanguage : String
  targetLanguage : String
  confidence : ℚ
deriving DecidableEq, Repr

/-- The component state of SingleDeviceBridge (volume and permission flags,
which no claim concerns, are omitted), together with the capture-adapter and
synthesis-client states it owns. -/
structure BridgeState where
  translations : List Translation
  languageA : String
  languageB : String
  isSetupComplete : Bool
  currentDirection : Direction
  lastProcessedTranscript : String
  isActive : Bool
  capture : CaptureState
  tts : TTSState
deriving DecidableEq, Repr

/-- The `useState` initial values of SingleDeviceBridge. -/
def initBridge : BridgeState :=
  { translations := []
    languageA := "en"
    languageB := "es"
    isSetupComplete := false
    currentDirection := .a_to_b
    lastProcessedTranscript := ""
    isActive := false
    capture := { isListening := false, micHeld := false }
    tts := initTTS }

/-- Function `startTranslation`: awaits `startListening` for the current source
language and sets `isActive`; if arming the capture throws (`captureOk =
false`), the `catch` only shows a toast, leaving the state unchanged. -/
def startTranslation (captureOk : Bool) (s : BridgeState) : BridgeState :=
  if captureOk then
    { s with capture := startListening s.capture, isActive := true }
  else s

/-- Function `stopTranslation`: stops listening and clears `isActive`.  Note that it
does not touch the synthesis client. -/
def stopTranslation (s : BridgeState) : BridgeState :=
  { s with capture := stopListening s.capture, isActive := false }

/-- Function `switchDirection`: flips the direction and, if currently active, stops
listening and deactivates. -/
def switchDirection (s : BridgeState) : BridgeState :=
  let s1 := { s with currentDirection := s.currentDirection.flip }
  if s1.isActive then
    { s1 with capture := stopListening s1.capture, isActive := false }
  else s1

/-- The `sourceLanguage` selection of `handleNewSpeech` (and of the render):
the configured language of the party currently speaking. -/
def relaySourceLanguage (s : BridgeState) : String :=
  if s.currentDirection = Direction.a_to_b then s.languageA else s.languageB

/-- The `targetLanguage` selection of `handleNewSpeech` (and of the render):
the configured language of the other party. -/
def relayTargetLanguage (s : BridgeState) : String :=
  if s.currentDirection = Direction.a_to_b then s.languageB else s.languageA

/-- Function `handleNewSpeech`: blank or duplicate transcripts return immediately;
otherwise the last-processed marker is set, source and target languages are
selected from the configured pair by the current direction, the text is
translated, a `Translation` record is appended, the translation is spoken,
and the relay auto-stops.  `now` stands for `Date.now()`, `conf` for the
capture confidence (`confidence || 0.8` handles a falsy zero). -/
def handleNewSpeech (p : ProviderOutcome) (o : TTSOutcome) (now : Nat)
    (conf : ℚ) (s : BridgeState) (text : String) : BridgeState :=
  if jsTrim text = "" ∨ text = s.lastProcessedTranscript then s
  else
    let s1 := { s with lastProcessedTranscript := text }
    let sourceLanguage := relaySourceLanguage s1
    let targetLanguage := relayTargetLanguage s1
    match translate p text sourceLanguage targetLanguage with
    | .error _ => s1
    | .ok result =>
      let t : Translation :=
        { id := toString now
          originalText := text
          translatedText := result.translatedText
          direction := s1.currentDirection
          timestamp := now
          sourceLanguage := sourceLanguage
          targetLanguage := targetLanguage
          confidence := if conf = 0 then mkRat 8 10 else conf }
      let s2 := { s1 with translations := s1.translations ++ [t] }
      match elevenSpeak o s2.tts result.translatedText targetLanguage with
      | .error _ => s2
      | .ok tts2 => stopTranslation { s2 with tts := tts2 }

/-- The user-visible events of SingleDeviceBridge: the language selectors and
the setup button of the setup screen, the three control buttons of the main
screen, and a final-transcript delivery from the capture adapter (the
`useEffect` watching `transcript`). -/
inductive Event where
  | setLangA (lang : String)
  | setLangB (lang : String)
  | completeSetup
  | pressStart (captureOk : Bool)
  | pressStop
  | pressSwitch
  | finalTranscript (text : String) (p : ProviderOutcome) (o : TTSOutcome)
      (conf : ℚ) (now : Nat)

/-- Event dispatch as the rendered UI wires it: the language selectors exist
only on the setup screen, the setup button is disabled while the two
languages are equal, the start button is rendered only while inactive, the
stop button only while active, the switch button is disabled while active,
and a transcript is handled only when non-empty and active. -/
def step (s : BridgeState) (e : Event) : BridgeState :=
  match e with
  | .setLangA lang =>
    if s.isSetupComplete then s else { s with languageA := lang }
  | .setLangB lang =>
    if s.isSetupComplete then s else { s with languageB := lang }
  | .completeSetup =>
    if s.languageA = s.languageB then s else { s with isSetupComplete := true }
  | .pressStart captureOk =>
    if s.isSetupComplete = false then s
    else if s.isActive then s
    else startTranslation captureOk s
  | .pressStop =>
    if s.isActive then stopTranslation s else s
  | .pressSwitch =>
    if s.isSetupComplete = false ∨ s.isActive = true then s
    else switchDirection s
  | .finalTranscript text p o conf now =>
    if text ≠ "" ∧ s.isActive = true then handleNewSpeech p o now conf s text
    else s

/-- Runs a sequence of UI events. -/
def run (s : BridgeState) (es : List Event) : BridgeState :=
  es.foldl step s

/-! ## Claims about the Translation Client -/

/-- C3 counterexample: the whitespace-only text " " is non-empty, yet
`translate` rejects it with an error instead of returning it unchanged with
confidence 1.0, because the guard tests the trimmed text. -/
theorem identity_translation_blank_text_cex :
    (" " : String) ≠ "" ∧
    translate .netError " " "en" "en" = .error "No text to translate" :=
  ⟨by decide, rfl⟩

/-- C3 (amended): for every language and every text that is non-empty after
trimming, `translate text L L` returns exactly the original text with
confidence 1.0, and the result does not depend on the provider outcome — no
network call is made. -/
theorem identity_translation_no_network (p : ProviderOutcome)
    (text lang : String) (htext : jsTrim text ≠ "") :
    translate p text lang lang =
      .ok { translatedText := text, sourceLanguage := lang,
            targetLanguage := lang, confidence := mkRat 1 1 } := by
  unfold translate
  rw [if_neg htext, if_pos rfl]

theorem identity_translation_no_network_witness :
    jsTrim "hello" ≠ "" ∧
    translate .netError "hello" "en" "en" =
      .ok { translatedText := "hello", sourceLanguage := "en",
            targetLanguage := "en", confidence := mkRat 1 1 } :=
  ⟨by decide, identity_translation_no_network .netError "hello" "en" (by decide)⟩

/-- C4 counterexample: a tier-0 success (primary provider answered) reports
confidence 0.9, not full confidence 1.0. -/
theorem tier0_confidence_not_full_cex :
    translate (.ok (some "hola")) "hello" "en" "es" =
      .ok { translatedText := "hola", sourceLanguage := "en",
            targetLanguage := "es", confidence := mkRat 9 10 } ∧
    mkRat 9 10 ≠ mkRat 1 1 :=
  ⟨rfl, by decide⟩

/-- C4 (amended): for distinct languages and non-blank text, a tier-0 success
reports confidence 0.9 (not full confidence), and every fallback-tier result
(the single catch-all tier covering phrase table and passthrough; there is no
alternate-provider tier) reports 0.7, so the confidence is monotonically
non-increasing across tiers: 1.0 (identity) ≥ 0.9 (tier 0) ≥ 0.7 (fallback). -/
theorem fallback_confidence_monotone (text fromLang toLang : String)
    (htext : jsTrim text ≠ "") (hlang : fromLang ≠ toLang) :
    (∀ payload, ∃ r, translate (.ok payload) text fromLang toLang = .ok r ∧
      r.confidence = mkRat 9 10) ∧
    (∀ p, p.isFailure = true → ∃ r, translate p text fromLang toLang = .ok r ∧
      r.confidence = mkRat 7 10) ∧
    mkRat 7 10 ≤ mkRat 9 10 ∧ mkRat 9 10 ≤ mkRat 1 1 := by
  refine ⟨?_, ?_, by decide, by decide⟩
  · intro payload
    unfold translate
    rw [if_neg htext, if_neg hlang]
    exact ⟨_, rfl, rfl⟩
  · intro p hp
    unfold translate
    rw [if_neg htext, if_neg hlang]
    cases p with
    | netError => exact ⟨_, rfl, rfl⟩
    | httpError => exact ⟨_, rfl, rfl⟩
    | ok payload => simp [ProviderOutcome.isFailure] at hp

theorem fallback_confidence_monotone_witness :
    jsTrim "hello" ≠ "" ∧ ("en" : String) ≠ "es" ∧
    (∃ r, translate (.ok (some "hola")) "hello" "en" "es" = .ok r ∧
      r.confidence = mkRat 9 10) ∧
    (∃ r, translate .netError "hello" "en" "es" = .ok r ∧
      r.confidence = mkRat 7 10) :=
  ⟨by decide, by decide,
    (fallback_confidence_monotone "hello" "en" "es" (by decide) (by decide)).1
      (some "hola"),
    (fallback_confidence_monotone "hello" "en" "es" (by decide) (by decide)).2.1
      .netError rfl⟩

/-- C5 counterexample: for the whitespace-only (hence non-empty) text " "
with distinct languages, the call does not return a result under a provider
failure — it throws the empty-text error, because the guard tests the trimmed
text before any fallback applies. -/
theorem provider_failure_blank_text_cex :
    (" " : String) ≠ "" ∧ ProviderOutcome.netError.isFailure = true ∧
    translate .netError " " "fr" "en" = .error "No text to translate" :=
  ⟨by decide, rfl, rfl⟩

/-- C5 (amended): for every text that is non-empty after trimming, a provider
failure (network error or non-2xx) never escapes `translate`: the call
returns a result, and when the languages differ and the phrase table has no
entry for the pair, the passthrough tier returns the original text prefixed
with the upper-cased target-language marker, at the fallback confidence. -/
theorem provider_failure_falls_back_to_passthrough (p : ProviderOutcome)
    (text fromLang toLang : String) (hp : p.isFailure = true)
    (htext : jsTrim text ≠ "") :
    ∃ r, translate p text fromLang toLang = .ok r ∧
      (fromLang ≠ toLang → hasPhraseEntry fromLang toLang = false →
        r.translatedText = "[" ++ jsToUpper toLang ++ "] " ++ text ∧
        r.confidence = mkRat 7 10) := by
  unfold translate
  rw [if_neg htext]
  by_cases hlang : fromLang = toLang
  · rw [if_pos hlang]
    exact ⟨_, rfl, fun h => absurd hlang h⟩
  · rw [if_neg hlang]
    cases p with
    | ok payload => simp [ProviderOutcome.isFailure] at hp
    | netError =>
      refine ⟨_, rfl, fun _ htable => ⟨?_, rfl⟩⟩
      simp only [hasPhraseEntry, decide_eq_false_iff_not, not_or] at htable
      obtain ⟨h1, h2, h3⟩ := htable
      simp only [fallbackTranslate, if_neg h1, if_neg h2, if_neg h3]
    | httpError =>
      refine ⟨_, rfl, fun _ htable => ⟨?_, rfl⟩⟩
      simp only [hasPhraseEntry, decide_eq_false_iff_not, not_or] at htable
      obtain ⟨h1, h2, h3⟩ := htable
      simp only [fallbackTranslate, if_neg h1, if_neg h2, if_neg h3]

theorem provider_failure_falls_back_to_passthrough_witness :
    ProviderOutcome.netError.isFailure = true ∧ jsTrim "bonjour" ≠ "" ∧
    ∃ r, translate .netError "bonjour" "fr" "en" = .ok r ∧
      r.translatedText = "[EN] bonjour" ∧ r.confidence = mkRat 7 10 := by
  refine ⟨rfl, by decide, ?_⟩
  obtain ⟨r, hr, hcond⟩ :=
    provider_failure_falls_back_to_passthrough .netError "bonjour" "fr" "en"
      rfl (by decide)
  exact ⟨r, hr, (hcond (by decide) (by decide)).1, (hcond (by decide) (by decide)).2⟩

/-- C6 counterexample: a successful provider response with a missing
translated payload yields the original text at the tier-0 confidence 0.9 —
the caller receives a tier-0-success result, not a fallback-tier result
(which would carry confidence 0.7). -/
theorem empty_payload_tier0_cex :
    translate (.ok none) "bonjour" "fr" "en" =
      .ok { translatedText := "bonjour", sourceLanguage := "fr",
            targetLanguage := "en", confidence := mkRat 9 10 } ∧
    mkRat 9 10 ≠ mkRat 7 10 :=
  ⟨rfl, by decide⟩

/-- C6 (amended): when the provider responds successfully but the translated
payload is missing or empty, `translate` does not throw — but it substitutes
the original text and reports it as a tier-0 success with confidence 0.9
rather than as a fallback-tier result. -/
theorem empty_payload_does_not_throw (text fromLang toLang : String)
    (htext : jsTrim text ≠ "") (hlang : fromLang ≠ toLang) :
    translate (.ok none) text fromLang toLang =
      .ok { translatedText := text, sourceLanguage := fromLang,
            targetLanguage := toLang, confidence := mkRat 9 10 } ∧
    translate (.ok (some "")) text fromLang toLang =
      .ok { translatedText := text, sourceLanguage := fromLang,
            targetLanguage := toLang, confidence := mkRat 9 10 } := by
  refine ⟨?_, ?_⟩ <;> unfold translate <;> rw [if_neg htext, if_neg hlang]
  rfl

theorem empty_payload_does_not_throw_witness :
    jsTrim "bonjour" ≠ "" ∧ ("fr" : String) ≠ "en" ∧
    translate (.ok none) "bonjour" "fr" "en" =
      .ok { translatedText := "bonjour", sourceLanguage := "fr",
            targetLanguage := "en", confidence := mkRat 9 10 } :=
  ⟨by decide, by decide,
    (empty_payload_does_not_throw "bonjour" "fr" "en" (by decide) (by decide)).1⟩

/-! ## Phone-call variant stop path (PhoneCallTranslator / usePhoneCallIntegration) -/

/-- The slice of PhoneCallTranslator state touched by
`stopPhoneCallTranslation`: the call-recording flag of
`usePhoneCallIntegration`, the capture adapter, and the synthesis client. -/
structure PhoneCallState where
  callRecordingActive : Bool
  capture : CaptureState
  tts : TTSState
deriving DecidableEq, Repr

/-- Function `stopCallRecording` of `usePhoneCallIntegration`: stops the media recorder
and tracks and resets the call state. -/
def stopCallRecording (ps : PhoneCallState) : PhoneCallState :=
  { ps with callRecordingActive := false }

/-- Function `stopPhoneCallTranslation` of PhoneCallTranslator: stops call recording,
stops listening, and stops any playing synthesis audio. -/
def stopPhoneCallTranslation (ps : PhoneCallState) : PhoneCallState :=
  let ps1 := stopCallRecording ps
  let ps2 := { ps1 with capture := stopListening ps1.capture }
  { ps2 with tts := stopSpeaking ps2.tts }

/-! ## Claims about the relay -/

/-- A reachable state in which the relay is active: setup completed and the
start control pressed. -/
def demoActive : BridgeState :=
  run initBridge [Event.completeSetup, Event.pressStart true]

/-- C2: pressing start while the relay is not idle is rejected outright — the
state is unchanged, so no capture is armed and no utterance record is
created, keeping at most one utterance in flight. -/
theorem start_rejected_outside_idle (s : BridgeState) (captureOk : Bool)
    (h : s.isActive = true) : step s (Event.pressStart captureOk) = s := by
  simp [step, h]

theorem start_rejected_outside_idle_witness :
    demoActive.isActive = true ∧
    step demoActive (Event.pressStart false) = demoActive :=
  ⟨rfl, start_rejected_outside_idle demoActive false rfl⟩

/-- A reachable state in which synthesis audio is still playing: a processed
utterance auto-stops the relay after playback starts, leaving the audio
playing. -/
def demoSpeaking : BridgeState :=
  run initBridge
    [Event.completeSetup, Event.pressStart true,
     Event.finalTranscript "hello" (.ok (some "hola")) .success (mkRat 9 10) 5]

/-- C8 counterexample: from a reachable state whose synthesis audio is
playing, `stopTranslation` returns the relay to idle but does not halt the
audio — it never touches the synthesis client. -/
theorem stop_leaves_audio_playing_cex :
    demoSpeaking.tts.isPlaying = true ∧
    (stopTranslation demoSpeaking).isActive = false ∧
    (stopTranslation demoSpeaking).tts.isPlaying = true :=
  ⟨rfl, rfl, rfl⟩

/-- C8 (amended): from any state, `stopTranslation` returns the relay to idle
and releases the capture resource (adapter not listening, microphone
released) but leaves the synthesis client untouched; only the phone-call
variant's `stopPhoneCallTranslation` additionally halts playing synthesis
audio. -/
theorem stop_returns_idle_releases_capture (s : BridgeState)
    (ps : PhoneCallState) :
    (stopTranslation s).isActive = false ∧
    (stopTranslation s).capture.isListening = false ∧
    (stopTranslation s).capture.micHeld = false ∧
    (stopTranslation s).tts = s.tts ∧
    (stopPhoneCallTranslation ps).callRecordingActive = false ∧
    (stopPhoneCallTranslation ps).capture.isListening = false ∧
    (stopPhoneCallTranslation ps).capture.micHeld = false ∧
    (stopPhoneCallTranslation ps).tts.isPlaying = false :=
  ⟨rfl, rfl, rfl, rfl, rfl, rfl, rfl, rfl⟩

/-- C9: `speak` of `useElevenLabsTTS` absorbs every provider failure in its
own catch, so the promise it returns always resolves; consequently the
browser-synthesis fallback in the `catch` of `speakTranslationDuringCall` is
unreachable, and a provider failure leaves the utterance unspoken — at the
failing input (text "hola", active call, provider error) nothing is played
on either engine and only an error message is recorded. -/
theorem tts_provider_failure_never_reaches_browser_fallback :
    (∀ (o : TTSOutcome) (ts : TTSState) (text lang : String),
      ∃ ts2, elevenSpeak o ts text lang = .ok ts2) ∧
    speakTranslationDuringCall (.fnError "TTS provider failed") true initTTS
        "hola" "es" =
      { isPlaying := false, errorMsg := some "TTS provider failed",
        spoken := [] } := by
  constructor
  · intro o ts text lang
    unfold elevenSpeak
    by_cases h : jsTrim text = ""
    · rw [if_pos h]
      exact ⟨ts, rfl⟩
    · rw [if_neg h]
      cases o <;> exact ⟨_, rfl⟩
  · rfl

/-- A transcript that is blank or equal to the duplicate-suppression marker is
ignored by `handleNewSpeech`. -/
theorem handleNewSpeech_guard (p : ProviderOutcome) (o : TTSOutcome)
    (now : Nat) (conf : ℚ) (s : BridgeState) (text : String)
    (h : jsTrim text = "" ∨ text = s.lastProcessedTranscript) :
    handleNewSpeech p o now conf s text = s := by
  unfold handleNewSpeech
  rw [if_pos h]

/-- A processed transcript becomes the duplicate-suppression marker. -/
theorem handleNewSpeech_lastProcessed (p : ProviderOutcome) (o : TTSOutcome)
    (now : Nat) (conf : ℚ) (s : BridgeState) (text : String)
    (h : ¬(jsTrim text = "" ∨ text = s.lastProcessedTranscript)) :
    (handleNewSpeech p o now conf s text).lastProcessedTranscript = text := by
  simp only [handleNewSpeech]
  rw [if_neg h]
  repeat' split
  all_goals rfl

/-- C7: delivering the same final transcript twice in a row is processed at
most once — the second delivery leaves the state of the first exactly as it
was: no second utterance record, no second translation, and no audio added to
the playback log. -/
theorem duplicate_final_transcript_processed_once (p p2 : ProviderOutcome)
    (o o2 : TTSOutcome) (now now2 : Nat) (conf conf2 : ℚ) (s : BridgeState)
    (text : String) :
    handleNewSpeech p2 o2 now2 conf2 (handleNewSpeech p o now conf s text)
        text =
      handleNewSpeech p o now conf s text := by
  by_cases h : jsTrim text = "" ∨ text = s.lastProcessedTranscript
  · rw [handleNewSpeech_guard p o now conf s text h]
    exact handleNewSpeech_guard p2 o2 now2 conf2 s text h
  · exact handleNewSpeech_guard p2 o2 now2 conf2 _ text
      (Or.inr (handleNewSpeech_lastProcessed p o now conf s text h).symm)

theorem stopTranslation_lastProcessed (s : BridgeState) :
    (stopTranslation s).lastProcessedTranscript = s.lastProcessedTranscript :=
  rfl

theorem switchDirection_lastProcessed (s : BridgeState) :
    (switchDirection s).lastProcessedTranscript = s.lastProcessedTranscript := by
  simp only [switchDirection]
  split <;> rfl

theorem startTranslation_lastProcessed (captureOk : Bool) (s : BridgeState) :
    (startTranslation captureOk s).lastProcessedTranscript =
      s.lastProcessedTranscript := by
  unfold startTranslation
  split <;> rfl

theorem step_pressStop_lastProcessed (s : BridgeState) :
    (step s Event.pressStop).lastProcessedTranscript =
      s.lastProcessedTranscript := by
  show (if s.isActive = true then stopTranslation s else s).lastProcessedTranscript = _
  split <;> rfl

theorem step_pressSwitch_lastProcessed (s : BridgeState) :
    (step s Event.pressSwitch).lastProcessedTranscript =
      s.lastProcessedTranscript := by
  show (if s.isSetupComplete = false ∨ s.isActive = true then s
    else switchDirection s).lastProcessedTranscript = _
  split
  · rfl
  · exact switchDirection_lastProcessed s

theorem step_pressStart_lastProcessed (captureOk : Bool) (s : BridgeState) :
    (step s (Event.pressStart captureOk)).lastProcessedTranscript =
      s.lastProcessedTranscript := by
  show (if s.isSetupComplete = false then s
    else if s.isActive = true then s
    else startTranslation captureOk s).lastProcessedTranscript = _
  split
  · rfl
  · split
    · rfl
    · exact startTranslation_lastProcessed captureOk s

/-- A final transcript equal to the duplicate-suppression marker changes
nothing. -/
theorem finalTranscript_duplicate_noop (s : BridgeState) (text : String)
    (p : ProviderOutcome) (o : TTSOutcome) (conf : ℚ) (now : Nat)
    (h : text = s.lastProcessedTranscript) :
    step s (Event.finalTranscript text p o conf now) = s := by
  show (if text ≠ "" ∧ s.isActive = true then handleNewSpeech p o now conf s text
    else s) = s
  split
  · exact handleNewSpeech_guard p o now conf s text (Or.inr h)
  · rfl

/-- C10: the duplicate-suppression marker is kept across stop, direction
switch and restart — none of those events clears it — so a later final
transcript that is textually identical to the last processed one is silently
dropped: the whole stop/switch/start/deliver sequence ends in the same state
as stop/switch/start alone, with no new translation produced. -/
theorem duplicate_filter_never_cleared (s : BridgeState) (text : String)
    (captureOk : Bool) (p : ProviderOutcome) (o : TTSOutcome) (conf : ℚ)
    (now : Nat) (h : text = s.lastProcessedTranscript) :
    (run s [Event.pressStop, Event.pressSwitch, Event.pressStart captureOk]).lastProcessedTranscript
        = s.lastProcessedTranscript ∧
    run s [Event.pressStop, Event.pressSwitch, Event.pressStart captureOk,
           Event.finalTranscript text p o conf now]
      = run s [Event.pressStop, Event.pressSwitch, Event.pressStart captureOk] := by
  have h3 : (run s [Event.pressStop, Event.pressSwitch,
      Event.pressStart captureOk]).lastProcessedTranscript
      = s.lastProcessedTranscript := by
    show (step (step (step s Event.pressStop) Event.pressSwitch)
      (Event.pressStart captureOk)).lastProcessedTranscript = _
    rw [step_pressStart_lastProcessed, step_pressSwitch_lastProcessed,
      step_pressStop_lastProcessed]
  refine ⟨h3, ?_⟩
  show step (step (step (step s Event.pressStop) Event.pressSwitch)
      (Event.pressStart captureOk)) (Event.finalTranscript text p o conf now) = _
  exact finalTranscript_duplicate_noop _ text p o conf now (h.trans h3.symm)

/-- A reachable state that has just processed the transcript "hello". -/
def demoProcessed : BridgeState :=
  run initBridge
    [Event.completeSetup, Event.pressStart true,
     Event.finalTranscript "hello" (.ok (some "hola")) .success (mkRat 9 10) 5]

theorem duplicate_filter_never_cleared_witness :
    ("hello" : String) = demoProcessed.lastProcessedTranscript ∧
    run demoProcessed
        [Event.pressStop, Event.pressSwitch, Event.pressStart true,
         Event.finalTranscript "hello" .netError .success (mkRat 9 10) 6]
      = run demoProcessed
          [Event.pressStop, Event.pressSwitch, Event.pressStart true] :=
  ⟨rfl,
    (duplicate_filter_never_cleared demoProcessed "hello" true .netError
      .success (mkRat 9 10) 6 rfl).2⟩

/-- The two possible source/target assignments, by direction. -/
theorem relayLanguages_cases (s : BridgeState) :
    (relaySourceLanguage s = s.languageA ∧ relayTargetLanguage s = s.languageB) ∨
    (relaySourceLanguage s = s.languageB ∧ relayTargetLanguage s = s.languageA) := by
  unfold relaySourceLanguage relayTargetLanguage
  by_cases hdir : s.currentDirection = Direction.a_to_b
  · rw [if_pos hdir, if_pos hdir]
    exact Or.inl ⟨rfl, rfl⟩
  · rw [if_neg hdir, if_neg hdir]
    exact Or.inr ⟨rfl, rfl⟩

/-- Distinct configured languages give distinct source and target. -/
theorem relayLanguages_ne (s : BridgeState) (h : s.languageA ≠ s.languageB) :
    relaySourceLanguage s ≠ relayTargetLanguage s := by
  rcases relayLanguages_cases s with ⟨h1, h2⟩ | ⟨h1, h2⟩ <;> rw [h1, h2]
  · exact h
  · exact fun e => h e.symm

theorem handleNewSpeech_languageA (p : ProviderOutcome) (o : TTSOutcome)
    (now : Nat) (conf : ℚ) (s : BridgeState) (text : String) :
    (handleNewSpeech p o now conf s text).languageA = s.languageA := by
  simp only [handleNewSpeech]
  repeat' split
  all_goals rfl

theorem handleNewSpeech_languageB (p : ProviderOutcome) (o : TTSOutcome)
    (now : Nat) (conf : ℚ) (s : BridgeState) (text : String) :
    (handleNewSpeech p o now conf s text).languageB = s.languageB := by
  simp only [handleNewSpeech]
  repeat' split
  all_goals rfl

theorem handleNewSpeech_isSetupComplete (p : ProviderOutcome) (o : TTSOutcome)
    (now : Nat) (conf : ℚ) (s : BridgeState) (text : String) :
    (handleNewSpeech p o now conf s text).isSetupComplete =
      s.isSetupComplete := by
  simp only [handleNewSpeech]
  repeat' split
  all_goals rfl

/-- Function `handleNewSpeech` either keeps the active flag or auto-stops. -/
theorem handleNewSpeech_isActive (p : ProviderOutcome) (o : TTSOutcome)
    (now : Nat) (conf : ℚ) (s : BridgeState) (text : String) :
    (handleNewSpeech p o now conf s text).isActive = s.isActive ∨
    (handleNewSpeech p o now conf s text).isActive = false := by
  simp only [handleNewSpeech]
  repeat' split
  all_goals first
    | exact Or.inl rfl
    | exact Or.inr rfl

/-- Every utterance in the history after `handleNewSpeech` was already there
or carries the source/target languages the relay computed. -/
theorem handleNewSpeech_mem_translations (p : ProviderOutcome) (o : TTSOutcome)
    (now : Nat) (conf : ℚ) (s : BridgeState) (text : String) (t : Translation)
    (ht : t ∈ (handleNewSpeech p o now conf s text).translations) :
    t ∈ s.translations ∨
      (t.sourceLanguage = relaySourceLanguage s ∧
       t.targetLanguage = relayTargetLanguage s) := by
  by_cases hguard : jsTrim text = "" ∨ text = s.lastProcessedTranscript
  · rw [handleNewSpeech_guard p o now conf s text hguard] at ht
    exact Or.inl ht
  · simp only [handleNewSpeech, stopTranslation, stopListening] at ht
    rw [if_neg hguard] at ht
    repeat' split at ht
    all_goals first
      | exact Or.inl ht
      | (rw [List.mem_append, List.mem_singleton] at ht
         rcases ht with ht | ht
         · exact Or.inl ht
         · subst ht
           exact Or.inr ⟨rfl, rfl⟩)

/-- The inductive invariant of the bridge: once setup completes the two
configured languages differ, the relay can only be active after setup, and
every recorded utterance has distinct source and target languages. -/
def BridgeInv (s : BridgeState) : Prop :=
  (s.isSetupComplete = true → s.languageA ≠ s.languageB) ∧
  (s.isActive = true → s.isSetupComplete = true) ∧
  ∀ t ∈ s.translations, t.sourceLanguage ≠ t.targetLanguage

theorem bridgeInv_init : BridgeInv initBridge := by
  refine ⟨fun _ => by decide, fun h => by simp [initBridge] at h, fun t ht => ?_⟩
  simp [initBridge] at ht

theorem bridgeInv_step (s : BridgeState) (e : Event) (hs : BridgeInv s) :
    BridgeInv (step s e) := by
  obtain ⟨hlang, hact, htr⟩ := hs
  cases e with
  | setLangA lang =>
    simp only [step]
    split
    · exact ⟨hlang, hact, htr⟩
    · rename_i hns
      exact ⟨fun hsc => absurd hsc hns, fun ha => absurd (hact ha) hns, htr⟩
  | setLangB lang =>
    simp only [step]
    split
    · exact ⟨hlang, hact, htr⟩
    · rename_i hns
      exact ⟨fun hsc => absurd hsc hns, fun ha => absurd (hact ha) hns, htr⟩
  | completeSetup =>
    simp only [step]
    split
    · exact ⟨hlang, hact, htr⟩
    · rename_i hne
      exact ⟨fun _ => hne, fun _ => rfl, htr⟩
  | pressStart captureOk =>
    simp only [step]
    split
    · exact ⟨hlang, hact, htr⟩
    · split
      · exact ⟨hlang, hact, htr⟩
      · rename_i hsetup _
        simp only [startTranslation, startListening]
        split
        · refine ⟨hlang, fun _ => ?_, htr⟩
          cases hb : s.isSetupComplete with
          | false => exact absurd hb hsetup
          | true => rfl
        · exact ⟨hlang, hact, htr⟩
  | pressStop =>
    simp only [step]
    split
    · exact ⟨hlang, fun ha => Bool.noConfusion ha, htr⟩
    · exact ⟨hlang, hact, htr⟩
  | pressSwitch =>
    simp only [step]
    split
    · exact ⟨hlang, hact, htr⟩
    · simp only [switchDirection]
      split
      · exact ⟨hlang, fun ha => Bool.noConfusion ha, htr⟩
      · exact ⟨hlang, hact, htr⟩
  | finalTranscript text p o conf now =>
    simp only [step]
    split
    · rename_i hcond
      refine ⟨?_, ?_, ?_⟩
      · rw [handleNewSpeech_isSetupComplete, handleNewSpeech_languageA,
          handleNewSpeech_languageB]
        exact hlang
      · intro ha
        rw [handleNewSpeech_isSetupComplete]
        rcases handleNewSpeech_isActive p o now conf s text with he | he
        · exact hact (he ▸ ha)
        · rw [he] at ha
          exact Bool.noConfusion ha
      · intro t ht
        rcases handleNewSpeech_mem_translations p o now conf s text t ht with
          hmem | ⟨h1, h2⟩
        · exact htr t hmem
        · rw [h1, h2]
          exact relayLanguages_ne s (hlang (hact hcond.2))
    · exact ⟨hlang, hact, htr⟩

theorem bridgeInv_run (s : BridgeState) (es : List Event) (hs : BridgeInv s) :
    BridgeInv (run s es) := by
  induction es generalizing s with
  | nil => exact hs
  | cons e es ih => exact ih (step s e) (bridgeInv_step s e hs)

/-- C1: along every event trace from the initial state, every utterance
record the relay creates has a source language different from its target
language — the relay picks them as the two configured session languages
selected by the current direction, and setup cannot complete while the two
configured languages are equal. -/
theorem relay_utterances_have_distinct_languages (es : List Event) :
    ∀ t ∈ (run initBridge es).translations,
      t.sourceLanguage ≠ t.targetLanguage :=
  (bridgeInv_run initBridge es bridgeInv_init).2.2

/-- A trace that produces one utterance. -/
def demoTrace : List Event :=
  [Event.completeSetup, Event.pressStart true,
   Event.finalTranscript "hello" (.ok (some "hola")) .success (mkRat 9 10) 5]

/-- The utterance record produced by `demoTrace`. -/
def demoUtterance : Translation :=
  { id := "5", originalText := "hello", translatedText := "hola",
    direction := .a_to_b, timestamp := 5, sourceLanguage := "en",
    targetLanguage := "es", confidence := mkRat 9 10 }

theorem relay_utterances_have_distinct_languages_witness :
    demoUtterance ∈ (run initBridge demoTrace).translations ∧
    demoUtterance.sourceLanguage ≠ demoUtterance.targetLanguage :=
  ⟨by decide,
    relay_utterances_have_distinct_languages demoTrace demoUtterance
      (by decide)⟩

end Conversaflow
